import Mathlib

/- Shallow embedding of the backend synchronization engine of
   nodeconductor/structure/tasks.py: the sweep tasks, the per-entity sync and
   recovery pipelines, and the dependent propagation tasks (SSH keys, users).
   The finite-state-machine transition methods and the task decorators live in
   nodeconductor.core, which is outside the sources at hand; those pieces are
   modelled from the specification and are marked as such below. -/

/-- Synchronization states of a synchronizable entity (spec section 3). -/
inductive SyncState where
  | NEW
  | CREATION_SCHEDULED
  | CREATING
  | SYNCING_SCHEDULED
  | SYNCING
  | IN_SYNC
  | ERRED
deriving DecidableEq, Repr

/-- A synchronizable entity (ServiceSettings): durable record of uuid, state,
error message and display name. -/
structure Entity where
  uuid : Nat
  state : SyncState
  error_message : String
  name : String
deriving DecidableEq, Repr

/-- Modelled from the spec: the Transition Guard of section 4.1
(nodeconductor.core.tasks.transition and the FSM methods of the
SynchronizableMixin are not under src/). It succeeds only when the current
state is in the allowed set for the requested target state, in which case it
persists the new state; otherwise the transition is illegal. -/
def transitionGuard (allowed : List SyncState) (tgt : SyncState) (e : Entity) : Option Entity :=
  if e.state ∈ allowed then some { e with state := tgt } else none

/-- Modelled from the spec: schedule_syncing enters SYNCING_SCHEDULED from
IN_SYNC (sweep, section 4.2 table) or from ERRED (recovery re-enters the
SYNCING_SCHEDULED path, section 4.2 table last row). -/
def schedule_syncing (e : Entity) : Option Entity :=
  transitionGuard [SyncState.IN_SYNC, SyncState.ERRED] SyncState.SYNCING_SCHEDULED e

/-- Modelled from the spec: beginSyncing requires current state IN_SYNC or
SYNCING_SCHEDULED and sets SYNCING (section 4.1). -/
def begin_syncing_guard (e : Entity) : Option Entity :=
  transitionGuard [SyncState.IN_SYNC, SyncState.SYNCING_SCHEDULED] SyncState.SYNCING e

/-- Modelled from the spec: beginCreating moves CREATION_SCHEDULED to CREATING
(section 4.2 table). -/
def begin_creating_guard (e : Entity) : Option Entity :=
  transitionGuard [SyncState.CREATION_SCHEDULED] SyncState.CREATING e

/-- Modelled from the spec: set_in_sync moves SYNCING or CREATING to IN_SYNC
(section 4.2 table). The guard itself only persists the new state; side
effects such as clearing the error message belong to the orchestrator tasks. -/
def set_in_sync (e : Entity) : Option Entity :=
  transitionGuard [SyncState.SYNCING, SyncState.CREATING] SyncState.IN_SYNC e

/-- Modelled from the spec: set_erred is the failure transition into ERRED;
the failure path must always be able to record an error (section 4.2). -/
def set_erred (e : Entity) : Entity :=
  { e with state := SyncState.ERRED }

/-- Modelled from the spec: set_in_sync_from_erred is a direct guarded
transition from ERRED back to IN_SYNC, used by the per-link recovery task. -/
def set_in_sync_from_erred (e : Entity) : Option Entity :=
  transitionGuard [SyncState.ERRED] SyncState.IN_SYNC e

/-- Outcome of one backend adapter operation: normal return, the
NotImplemented signal, or one of the two raised error kinds
(ServiceBackendError, CloudBackendError). -/
inductive AdapterOutcome where
  | ok
  | notImplemented
  | serviceError (msg : String)
  | cloudError (msg : String)
deriving DecidableEq, Repr

/-- Outcome of the liveness probe ping(): a boolean answer, the
NotImplemented signal, or a raised ServiceBackendError. -/
inductive PingOutcome where
  | ok (alive : Bool)
  | notImplemented
  | serviceError (msg : String)
deriving DecidableEq, Repr

/-- A backend adapter, described by the outcome each of its operations would
produce when invoked (spec section 6). -/
structure Backend where
  ping : PingOutcome
  sync : AdapterOutcome
  add_ssh_key : AdapterOutcome
  remove_ssh_key : AdapterOutcome
  add_user : AdapterOutcome
  remove_user : AdapterOutcome
  create_session_membership : AdapterOutcome
  create_session_keystone : AdapterOutcome
deriving DecidableEq, Repr

/-- Which adapter operations a unit of work actually invoked. -/
inductive AdapterOp where
  | pingOp
  | syncOp
  | addSshKeyOp
  | removeSshKeyOp
  | addUserOp
  | removeUserOp
  | createSessionOp
deriving DecidableEq, Repr

/-- Body of begin_syncing_service_settings and begin_creating_service_settings
(tasks.py lines 91-112): call backend.sync(), swallowing only
ServiceBackendNotImplemented; any other adapter error propagates out of the
body and its text is returned here as some msg. -/
def sync_task_body (b : Backend) : Option String :=
  match b.sync with
  | AdapterOutcome.ok => none
  | AdapterOutcome.notImplemented => none
  | AdapterOutcome.serviceError m => some m
  | AdapterOutcome.cloudError m => some m

/-- sync_service_settings_succeeded (tasks.py lines 115-122): apply the
set_in_sync transition; only when the recovering flag is set does it also
clear the error message. -/
def sync_service_settings_succeeded (recovering : Bool) (e : Entity) : Entity :=
  match set_in_sync e with
  | none => e
  | some e1 => if recovering then { e1 with error_message := "" } else e1

/-- sync_service_settings_failed (tasks.py lines 125-129): apply the set_erred
transition; the recovering flag only changes logging. -/
def sync_service_settings_failed (_recovering : Bool) (e : Entity) : Entity :=
  set_erred e

/-- Result of running one sync or creation pipeline on one entity: the final
persisted entity, whether a task-level retry was requested, and the adapter
operations invoked. -/
structure PipelineRun where
  entity : Entity
  retried : Bool
  calls : List AdapterOp
deriving DecidableEq, Repr

/-- Modelled from the spec: the scheduler chaining of a begin task with its
success and failure continuations (section 4.2 step 3), and the
save_error_message wrapper that persists the text of a raised adapter error
before the failure continuation runs; both wrappers live in
nodeconductor.core.tasks, not under src/. An illegal entry transition aborts
the unit of work, which triggers the failure continuation. The in-src pieces
composed here are sync_task_body and the two continuation tasks. -/
def run_sync_pipeline (tguard : Entity → Option Entity) (b : Backend)
    (recovering : Bool) (e : Entity) : PipelineRun :=
  match tguard e with
  | none =>
      { entity := sync_service_settings_failed recovering e, retried := false, calls := [] }
  | some e1 =>
      match sync_task_body b with
      | none =>
          { entity := sync_service_settings_succeeded recovering e1,
            retried := false, calls := [AdapterOp.syncOp] }
      | some m =>
          { entity := sync_service_settings_failed recovering { e1 with error_message := m },
            retried := false, calls := [AdapterOp.syncOp] }

/-- A task submission recorded by the periodic sweep. -/
inductive SubmittedTask where
  | beginSyncing (uuid : Nat)
  | beginCreating (uuid : Nat)
deriving DecidableEq, Repr

/-- Persist one entity back into the store by uuid. -/
def saveEntity (store : List Entity) (e : Entity) : List Entity :=
  store.map (fun (x : Entity) => if x.uuid = e.uuid then e else x)

/-- One iteration of the sweep loop of sync_service_settings (tasks.py lines
30-46): an entity found IN_SYNC is moved to SYNCING_SCHEDULED synchronously
and saved, then a beginSyncing task is submitted; an entity found
CREATION_SCHEDULED gets a beginCreating task submitted without any state
change; anything else is skipped with a warning. -/
def sweep_step (acc : List Entity × List SubmittedTask) (obj : Entity) :
    List Entity × List SubmittedTask :=
  if obj.state = SyncState.IN_SYNC then
    match schedule_syncing obj with
    | some obj1 => (saveEntity acc.1 obj1, acc.2 ++ [SubmittedTask.beginSyncing obj.uuid])
    | none => acc
  else if obj.state = SyncState.CREATION_SCHEDULED then
    (acc.1, acc.2 ++ [SubmittedTask.beginCreating obj.uuid])
  else acc

/-- sync_service_settings sweep (tasks.py lines 19-46): with no explicit uuid
list it selects the entities whose state is IN_SYNC, otherwise the entities
with the given uuids, and runs the sweep loop over the selection. -/
def sync_service_settings (settings_uuids : Option (List Nat)) (store : List Entity) :
    List Entity × List SubmittedTask :=
  let selected :=
    match settings_uuids with
    | some us => store.filter (fun (e : Entity) => e.uuid ∈ us)
    | none => store.filter (fun (e : Entity) => e.state = SyncState.IN_SYNC)
  selected.foldl sweep_step (store, [])

/-- recover_erred_service_settings sweep (tasks.py lines 73-88): with no
explicit uuid list it selects the entities whose state is ERRED and submits a
begin_recovering task for each; others are skipped with a warning. The result
is the list of uuids for which recovery was submitted. -/
def recover_erred_service_settings (settings_uuids : Option (List Nat))
    (store : List Entity) : List Nat :=
  let selected :=
    match settings_uuids with
    | some us => store.filter (fun (e : Entity) => e.uuid ∈ us)
    | none => store.filter (fun (e : Entity) => e.state = SyncState.ERRED)
  (selected.filter (fun (e : Entity) => e.state = SyncState.ERRED)).map (fun (e : Entity) => e.uuid)

/-- Result of begin_recovering_erred_service_settings: the persisted entity,
whether the begin_syncing pipeline was submitted, and the adapter calls. -/
structure RecoveringRun where
  entity : Entity
  submitted : Bool
  calls : List AdapterOp
deriving DecidableEq, Repr

/-- The entity state written when the recovery probe fails (tasks.py
lines 66-69): set_erred plus the ping-failure message. -/
def ping_failed (e : Entity) : Entity :=
  { set_erred e with error_message := "Failed to ping service settings " ++ e.name }

/-- begin_recovering_erred_service_settings (tasks.py lines 49-70): enter
SYNCING_SCHEDULED via schedule_syncing, probe the backend with ping();
NotImplemented makes the probe report not alive; a live probe submits the
begin_syncing pipeline with the recovering flag, a dead probe sets ERRED with
a ping-failure message. A ServiceBackendError raised by ping is not caught by
the body: the save_error_message wrapper persists its text and the unit of
work fails into ERRED. -/
def begin_recovering_erred_service_settings (b : Backend) (e : Entity) : RecoveringRun :=
  match schedule_syncing e with
  | none => { entity := e, submitted := false, calls := [] }
  | some e1 =>
      match b.ping with
      | PingOutcome.ok alive =>
          if alive then { entity := e1, submitted := true, calls := [AdapterOp.pingOp] }
          else { entity := ping_failed e1, submitted := false, calls := [AdapterOp.pingOp] }
      | PingOutcome.notImplemented =>
          { entity := ping_failed e1, submitted := false, calls := [AdapterOp.pingOp] }
      | PingOutcome.serviceError m =>
          { entity := { e1 with state := SyncState.ERRED, error_message := m },
            submitted := false, calls := [AdapterOp.pingOp] }

/-- End-to-end recovery of a single entity: begin_recovering followed, when
submitted, by the begin_syncing pipeline tagged with the recovering flag. -/
def recover_entity (b : Backend) (e : Entity) : PipelineRun :=
  let r := begin_recovering_erred_service_settings b e
  if r.submitted then
    let p := run_sync_pipeline begin_syncing_guard b true r.entity
    { p with calls := r.calls ++ p.calls }
  else
    { entity := r.entity, retried := false, calls := r.calls }

/-- An SSH public key payload, identified by uuid. -/
structure SshPublicKey where
  uuid : Nat
deriving DecidableEq, Repr

/-- A user payload, identified by uuid. -/
structure UserRec where
  uuid : Nat
deriving DecidableEq, Repr

/-- A service project link as seen by the dependent propagation tasks: its
synchronization state and its backend adapter. -/
structure SPLink where
  state : SyncState
  backend : Backend
deriving DecidableEq, Repr

/-- Observable outcome of the body of a dependent propagation task: the value
it returns (True terminates; False asks the retry wrapper to re-enqueue), the
adapter operations invoked, and whether a backend-failure warning was
logged. -/
structure BodyRun where
  value : Bool
  calls : List AdapterOp
  warned : Bool
deriving DecidableEq, Repr

/-- The add_ssh_key adapter call of push_ssh_public_key (tasks.py lines
210-224): ok logs success, NotImplemented is swallowed, ServiceBackendError
and CloudBackendError are logged as warnings; the body then returns True. -/
def call_add_ssh_key (l : SPLink) : BodyRun :=
  match l.backend.add_ssh_key with
  | AdapterOutcome.ok => { value := true, calls := [AdapterOp.addSshKeyOp], warned := false }
  | AdapterOutcome.notImplemented =>
      { value := true, calls := [AdapterOp.addSshKeyOp], warned := false }
  | AdapterOutcome.serviceError _ =>
      { value := true, calls := [AdapterOp.addSshKeyOp], warned := true }
  | AdapterOutcome.cloudError _ =>
      { value := true, calls := [AdapterOp.addSshKeyOp], warned := true }

/-- Body of push_ssh_public_key (tasks.py lines 183-224): a missing key or
link terminates with True; a link neither IN_SYNC nor ERRED returns False so
the retry wrapper re-enqueues; otherwise (IN_SYNC, but also ERRED, since only
the inner state check guards the early return) the adapter is invoked. -/
def push_ssh_public_key_body (key : Option SshPublicKey) (link : Option SPLink) : BodyRun :=
  match key with
  | none => { value := true, calls := [], warned := false }
  | some _ =>
      match link with
      | none => { value := true, calls := [], warned := false }
      | some l =>
          if l.state ≠ SyncState.IN_SYNC then
            if l.state ≠ SyncState.ERRED then
              { value := false, calls := [], warned := false }
            else call_add_ssh_key l
          else call_add_ssh_key l

/-- Observable outcome of a dependent task wrapped with the retry decorator. -/
structure DepRun where
  retried : Bool
  calls : List AdapterOp
  warned : Bool
deriving DecidableEq, Repr

/-- Modelled from the spec: the retry_if_false wrapper of
nodeconductor.core.tasks (not under src/): a False return signals not-ready
and the scheduler re-enqueues the task after a fixed backoff delay, bounded
by a maximum retry count (section 4.3). -/
def retry_if_false (r : BodyRun) : DepRun :=
  { retried := !r.value, calls := r.calls, warned := r.warned }

/-- push_ssh_public_key with its retry wrapper. -/
def push_ssh_public_key (key : Option SshPublicKey) (link : Option SPLink) : DepRun :=
  retry_if_false (push_ssh_public_key_body key link)

/-- The add_user adapter call of add_user (tasks.py lines 278-292): same
error handling as call_add_ssh_key. -/
def call_add_user (l : SPLink) : BodyRun :=
  match l.backend.add_user with
  | AdapterOutcome.ok => { value := true, calls := [AdapterOp.addUserOp], warned := false }
  | AdapterOutcome.notImplemented =>
      { value := true, calls := [AdapterOp.addUserOp], warned := false }
  | AdapterOutcome.serviceError _ =>
      { value := true, calls := [AdapterOp.addUserOp], warned := true }
  | AdapterOutcome.cloudError _ =>
      { value := true, calls := [AdapterOp.addUserOp], warned := true }

/-- Body of add_user (tasks.py lines 251-292): same shape as
push_ssh_public_key_body, over the user payload and the add_user call. -/
def add_user_body (user : Option UserRec) (link : Option SPLink) : BodyRun :=
  match user with
  | none => { value := true, calls := [], warned := false }
  | some _ =>
      match link with
      | none => { value := true, calls := [], warned := false }
      | some l =>
          if l.state ≠ SyncState.IN_SYNC then
            if l.state ≠ SyncState.ERRED then
              { value := false, calls := [], warned := false }
            else call_add_user l
          else call_add_user l

/-- add_user with its retry wrapper. -/
def add_user (user : Option UserRec) (link : Option SPLink) : DepRun :=
  retry_if_false (add_user_body user link)

/-- remove_ssh_public_key (tasks.py lines 227-248): no retry wrapper and no
state check; a missing link terminates with True, otherwise the adapter is
invoked whatever the link state; NotImplemented is swallowed and both error
kinds are logged as warnings. -/
def remove_ssh_public_key (_key_data : SshPublicKey) (link : Option SPLink) : BodyRun :=
  match link with
  | none => { value := true, calls := [], warned := false }
  | some l =>
      match l.backend.remove_ssh_key with
      | AdapterOutcome.ok =>
          { value := true, calls := [AdapterOp.removeSshKeyOp], warned := false }
      | AdapterOutcome.notImplemented =>
          { value := true, calls := [AdapterOp.removeSshKeyOp], warned := false }
      | AdapterOutcome.serviceError _ =>
          { value := true, calls := [AdapterOp.removeSshKeyOp], warned := true }
      | AdapterOutcome.cloudError _ =>
          { value := true, calls := [AdapterOp.removeSshKeyOp], warned := true }

/-- Observable outcome of remove_user, which has no catch-all handler: the
adapter operations invoked and, when an adapter error escaped the task, its
text. -/
structure RawRun where
  calls : List AdapterOp
  raised : Option String
deriving DecidableEq, Repr

/-- remove_user (tasks.py lines 295-311): no retry wrapper and no state
check; a missing link terminates with True; the adapter is invoked whatever
the link state; only ServiceBackendNotImplemented is caught, so a
ServiceBackendError or CloudBackendError propagates out of the task. -/
def remove_user (_user_data : UserRec) (link : Option SPLink) : RawRun :=
  match link with
  | none => { calls := [], raised := none }
  | some l =>
      match l.backend.remove_user with
      | AdapterOutcome.ok => { calls := [AdapterOp.removeUserOp], raised := none }
      | AdapterOutcome.notImplemented => { calls := [AdapterOp.removeUserOp], raised := none }
      | AdapterOutcome.serviceError m => { calls := [AdapterOp.removeUserOp], raised := some m }
      | AdapterOutcome.cloudError m => { calls := [AdapterOp.removeUserOp], raised := some m }

/-- A service project link as seen by recover_erred_service: its own state,
the associated settings entity (spl.cloud when is_iaas, otherwise
spl.service.settings), and the backend adapter obtained from the link. -/
structure ServiceProjectLink where
  state : SyncState
  settings : Entity
  backend : Backend
deriving DecidableEq, Repr

/-- The liveness probe of recover_erred_service (tasks.py lines 142-157): in
the IaaS branch, create_session is attempted for each of the link and the
settings entity that is ERRED, and any raised error (CloudBackendError
inside, ServiceBackendError or NotImplemented at the outer handler) makes the
probe report not alive; otherwise ping() is used, with the same outer
handler. Returns the probe verdict and the adapter operations invoked. -/
def recover_probe (l : ServiceProjectLink) (is_iaas : Bool) : Bool × List AdapterOp :=
  if is_iaas then
    if l.state = SyncState.ERRED then
      match l.backend.create_session_membership with
      | AdapterOutcome.ok =>
          if l.settings.state = SyncState.ERRED then
            match l.backend.create_session_keystone with
            | AdapterOutcome.ok => (true, [AdapterOp.createSessionOp, AdapterOp.createSessionOp])
            | _ => (false, [AdapterOp.createSessionOp, AdapterOp.createSessionOp])
          else (true, [AdapterOp.createSessionOp])
      | _ => (false, [AdapterOp.createSessionOp])
    else
      if l.settings.state = SyncState.ERRED then
        match l.backend.create_session_keystone with
        | AdapterOutcome.ok => (true, [AdapterOp.createSessionOp])
        | _ => (false, [AdapterOp.createSessionOp])
      else (true, [])
  else
    match l.backend.ping with
    | PingOutcome.ok alive => (alive, [AdapterOp.pingOp])
    | PingOutcome.notImplemented => (false, [AdapterOp.pingOp])
    | PingOutcome.serviceError _ => (false, [AdapterOp.pingOp])

/-- recover_erred_service (tasks.py lines 132-165): a missing link logs and
returns; otherwise, when the probe reports alive, each of the link and the
settings entity that is ERRED is moved to IN_SYNC by set_in_sync_from_erred
and saved, and everything else is left unchanged; when the probe reports not
alive, nothing changes. -/
def recover_erred_service (spl : Option ServiceProjectLink) (is_iaas : Bool) :
    Option (ServiceProjectLink × List AdapterOp) :=
  match spl with
  | none => none
  | some l =>
      let probe := recover_probe l is_iaas
      if probe.1 then
        let newState :=
          if l.state = SyncState.ERRED then SyncState.IN_SYNC else l.state
        let newSettings :=
          if l.settings.state = SyncState.ERRED then
            match set_in_sync_from_erred l.settings with
            | some e2 => e2
            | none => l.settings
          else l.settings
        some ({ l with state := newState, settings := newSettings }, probe.2)
      else some (l, probe.2)

/-- A backend whose every operation succeeds and whose ping answers alive. -/
def okBackend : Backend where
  ping := PingOutcome.ok true
  sync := AdapterOutcome.ok
  add_ssh_key := AdapterOutcome.ok
  remove_ssh_key := AdapterOutcome.ok
  add_user := AdapterOutcome.ok
  remove_user := AdapterOutcome.ok
  create_session_membership := AdapterOutcome.ok
  create_session_keystone := AdapterOutcome.ok

lemma call_add_ssh_key_spec (l : SPLink) :
    (call_add_ssh_key l).value = true ∧ (call_add_ssh_key l).calls = [AdapterOp.addSshKeyOp] := by
  unfold call_add_ssh_key
  cases h : l.backend.add_ssh_key <;> simp [h]

lemma call_add_user_spec (l : SPLink) :
    (call_add_user l).value = true ∧ (call_add_user l).calls = [AdapterOp.addUserOp] := by
  unfold call_add_user
  cases h : l.backend.add_user <;> simp [h]

/-- C1, counterexample: the claim says the adapter operation is invoked only
when the link is IN_SYNC and never when it is ERRED; but push_ssh_public_key
invokes add_ssh_key on a link in state ERRED, and remove_user invokes
remove_user on a link in state SYNCING. -/
theorem C1_counterexample :
    (push_ssh_public_key (some ⟨7⟩) (some ⟨SyncState.ERRED, okBackend⟩)).calls
        = [AdapterOp.addSshKeyOp] ∧
    (remove_user ⟨9⟩ (some ⟨SyncState.SYNCING, okBackend⟩)).calls
        = [AdapterOp.removeUserOp] := by
  decide

/-- C1, amended: push_ssh_public_key and add_user invoke the adapter exactly
when the link is IN_SYNC or ERRED, and defer themselves (retry, no adapter
call) in every other state; remove_ssh_public_key and remove_user invoke the
adapter unconditionally, whatever the link state. -/
theorem C1_dependent_operations_gating (k : SshPublicKey) (u : UserRec) (l : SPLink) :
    ((l.state ≠ SyncState.IN_SYNC ∧ l.state ≠ SyncState.ERRED) →
      push_ssh_public_key (some k) (some l) = ⟨true, [], false⟩ ∧
      add_user (some u) (some l) = ⟨true, [], false⟩) ∧
    ((l.state = SyncState.IN_SYNC ∨ l.state = SyncState.ERRED) →
      (push_ssh_public_key (some k) (some l)).calls = [AdapterOp.addSshKeyOp] ∧
      (push_ssh_public_key (some k) (some l)).retried = false ∧
      (add_user (some u) (some l)).calls = [AdapterOp.addUserOp] ∧
      (add_user (some u) (some l)).retried = false) ∧
    (remove_ssh_public_key k (some l)).calls = [AdapterOp.removeSshKeyOp] ∧
    (remove_user u (some l)).calls = [AdapterOp.removeUserOp] := by
  refine ⟨?_, ?_, ?_, ?_⟩
  · rintro ⟨h1, h2⟩
    simp [push_ssh_public_key, push_ssh_public_key_body, add_user, add_user_body,
      retry_if_false, h1, h2]
  · intro h
    have hp : push_ssh_public_key_body (some k) (some l) = call_add_ssh_key l := by
      rcases h with h | h <;>
        simp [push_ssh_public_key_body, h]
    have ha : add_user_body (some u) (some l) = call_add_user l := by
      rcases h with h | h <;>
        simp [add_user_body, h]
    simp [push_ssh_public_key, add_user, retry_if_false, hp, ha,
      (call_add_ssh_key_spec l).1, (call_add_ssh_key_spec l).2,
      (call_add_user_spec l).1, (call_add_user_spec l).2]
  · unfold remove_ssh_public_key
    cases h : l.backend.remove_ssh_key <;> simp [h]
  · unfold remove_user
    cases h : l.backend.remove_user <;> simp [h]

/-- C1, witness: on a link in state SYNCING the push task defers itself
without an adapter call, and the removal task still invokes the adapter. -/
theorem C1_witness :
    push_ssh_public_key (some ⟨7⟩) (some ⟨SyncState.SYNCING, okBackend⟩) = ⟨true, [], false⟩ ∧
    (remove_user ⟨9⟩ (some ⟨SyncState.SYNCING, okBackend⟩)).calls = [AdapterOp.removeUserOp] :=
  ⟨((C1_dependent_operations_gating ⟨7⟩ ⟨9⟩ ⟨SyncState.SYNCING, okBackend⟩).1 (by decide)).1,
   (C1_dependent_operations_gating ⟨7⟩ ⟨9⟩ ⟨SyncState.SYNCING, okBackend⟩).2.2.2⟩

/-- C2, counterexample: a first-time (non-recovering) successful sync moves
the entity from SYNCING to IN_SYNC but leaves a stale, non-empty error
message in place, contrary to the claim that every successful transition into
IN_SYNC clears it. -/
theorem C2_counterexample :
    sync_service_settings_succeeded false ⟨1, SyncState.SYNCING, "old failure", "s"⟩
      = ⟨1, SyncState.IN_SYNC, "old failure", "s"⟩ ∧
    "old failure" ≠ "" := by
  refine ⟨rfl, by decide⟩

/-- C2, amended: a successful sync or creation continuation moves a SYNCING
or CREATING entity to IN_SYNC, and clears the error message only when the
task was tagged as a recovery; on a first-time sync the error message is left
unchanged. -/
theorem C2_success_clears_error_only_when_recovering (e : Entity) (r : Bool)
    (h : e.state = SyncState.SYNCING ∨ e.state = SyncState.CREATING) :
    (sync_service_settings_succeeded r e).state = SyncState.IN_SYNC ∧
    (sync_service_settings_succeeded r e).error_message =
      (if r then "" else e.error_message) := by
  have hs : set_in_sync e = some { e with state := SyncState.IN_SYNC } := by
    rcases h with h | h <;> simp [set_in_sync, transitionGuard, h]
  cases r <;> simp [sync_service_settings_succeeded, hs]

/-- C2, witness: a recovery-tagged success on a SYNCING entity ends IN_SYNC
with the error message cleared. -/
theorem C2_witness :
    (sync_service_settings_succeeded true ⟨1, SyncState.SYNCING, "old failure", "s"⟩).state
      = SyncState.IN_SYNC ∧
    (sync_service_settings_succeeded true ⟨1, SyncState.SYNCING, "old failure", "s"⟩).error_message
      = (if true then "" else "old failure") :=
  C2_success_clears_error_only_when_recovering ⟨1, SyncState.SYNCING, "old failure", "s"⟩ true
    (by decide)

lemma sweep_step_in_sync (acc : List Entity × List SubmittedTask) (obj : Entity)
    (h : obj.state = SyncState.IN_SYNC) :
    sweep_step acc obj =
      (saveEntity acc.1 { obj with state := SyncState.SYNCING_SCHEDULED },
       acc.2 ++ [SubmittedTask.beginSyncing obj.uuid]) := by
  simp [sweep_step, h, schedule_syncing, transitionGuard]

lemma sweep_foldl_tasks (sel : List Entity)
    (h : ∀ e ∈ sel, e.state = SyncState.IN_SYNC) :
    ∀ st acc, (sel.foldl sweep_step (st, acc)).2 =
      acc ++ sel.map (fun (e : Entity) => SubmittedTask.beginSyncing e.uuid) := by
  induction sel with
  | nil => intro st acc; simp
  | cons a tl ih =>
      intro st acc
      have ha : a.state = SyncState.IN_SYNC := h a (by simp)
      rw [List.foldl_cons, sweep_step_in_sync _ _ ha,
        ih (fun e he => h e (by simp [he]))]
      simp

/-- C3, counterexample: with no explicit uuid list, the sweep run over a
store holding one CREATION_SCHEDULED entity submits no task at all and leaves
the entity untouched, contrary to the claim that the sweep selects
CREATION_SCHEDULED entities and submits beginCreating for them. -/
theorem C3_counterexample :
    (sync_service_settings none [⟨1, SyncState.CREATION_SCHEDULED, "", "s"⟩]).2 = [] ∧
    (sync_service_settings none [⟨1, SyncState.CREATION_SCHEDULED, "", "s"⟩]).1
      = [⟨1, SyncState.CREATION_SCHEDULED, "", "s"⟩] := by
  decide

/-- C3, amended: with no explicit uuid list the sweep selects exactly the
entities whose state is IN_SYNC and submits a beginSyncing task for each of
them, in store order; a CREATION_SCHEDULED entity triggers a beginCreating
task only when the sweep is invoked with its uuid explicitly. -/
theorem C3_sweep_selection (store : List Entity) :
    (sync_service_settings none store).2 =
      (store.filter (fun (e : Entity) => e.state = SyncState.IN_SYNC)).map
        (fun (e : Entity) => SubmittedTask.beginSyncing e.uuid) ∧
    (∀ e : Entity, e.state = SyncState.CREATION_SCHEDULED →
      (sync_service_settings (some [e.uuid]) [e]).2 = [SubmittedTask.beginCreating e.uuid]) := by
  constructor
  · have h : ∀ e ∈ store.filter (fun (e : Entity) => e.state = SyncState.IN_SYNC),
        e.state = SyncState.IN_SYNC := by
      intro e he
      simpa using (List.mem_filter.mp he).2
    simpa [sync_service_settings] using sweep_foldl_tasks _ h store []
  · intro e he
    simp [sync_service_settings, sweep_step, he]

/-- C3, witness: a store with one IN_SYNC and one ERRED entity gets exactly
one beginSyncing submission, and an explicitly named CREATION_SCHEDULED
entity gets a beginCreating submission. -/
theorem C3_witness :
    (sync_service_settings none
        [⟨1, SyncState.IN_SYNC, "", "a"⟩, ⟨2, SyncState.ERRED, "x", "b"⟩]).2
      = ([⟨1, SyncState.IN_SYNC, "", "a"⟩, ⟨2, SyncState.ERRED, "x", "b"⟩].filter
          (fun (e : Entity) => e.state = SyncState.IN_SYNC)).map
          (fun (e : Entity) => SubmittedTask.beginSyncing e.uuid) ∧
    (sync_service_settings (some [3]) [⟨3, SyncState.CREATION_SCHEDULED, "", "c"⟩]).2
      = [SubmittedTask.beginCreating 3] :=
  ⟨(C3_sweep_selection [⟨1, SyncState.IN_SYNC, "", "a"⟩, ⟨2, SyncState.ERRED, "x", "b"⟩]).1,
   (C3_sweep_selection []).2 ⟨3, SyncState.CREATION_SCHEDULED, "", "c"⟩ rfl⟩

/-- C4, counterexample: a sweep invoked with the uuid of a CREATION_SCHEDULED
entity submits beginCreating without any synchronous state change, so the
entity is still CREATION_SCHEDULED when the sweep returns and a second,
identical sweep submits the very same task for it again. -/
theorem C4_counterexample :
    (sync_service_settings (some [1]) [⟨1, SyncState.CREATION_SCHEDULED, "", "s"⟩]).1
      = [⟨1, SyncState.CREATION_SCHEDULED, "", "s"⟩] ∧
    (sync_service_settings (some [1]) [⟨1, SyncState.CREATION_SCHEDULED, "", "s"⟩]).2
      = [SubmittedTask.beginCreating 1] ∧
    (sync_service_settings (some [1])
        (sync_service_settings (some [1]) [⟨1, SyncState.CREATION_SCHEDULED, "", "s"⟩]).1).2
      = [SubmittedTask.beginCreating 1] := by
  decide

/-- C4, amended: only for an entity selected in state IN_SYNC does the sweep
persist the transition to SYNCING_SCHEDULED synchronously, before the task
submission is recorded and before the sweep returns, so a second no-id sweep
over the resulting store submits nothing for it; an entity selected in
CREATION_SCHEDULED is submitted with its stored state left unchanged, and the
transition to CREATING only happens later, inside the asynchronous task. -/
theorem C4_synchronous_transition_before_submit (e : Entity) :
    (e.state = SyncState.IN_SYNC →
      sync_service_settings none [e] =
        ([{ e with state := SyncState.SYNCING_SCHEDULED }],
         [SubmittedTask.beginSyncing e.uuid]) ∧
      (sync_service_settings none [{ e with state := SyncState.SYNCING_SCHEDULED }]).2 = []) ∧
    (e.state = SyncState.CREATION_SCHEDULED →
      (sync_service_settings (some [e.uuid]) [e]).1 = [e] ∧
      begin_creating_guard e = some { e with state := SyncState.CREATING }) := by
  constructor
  · intro h
    constructor
    · simp [sync_service_settings, sweep_step, h, schedule_syncing, transitionGuard,
        saveEntity]
    · simp [sync_service_settings]
  · intro h
    constructor
    · simp [sync_service_settings, sweep_step, h]
    · simp [begin_creating_guard, transitionGuard, h]

/-- C4, witness: the IN_SYNC branch at a concrete entity, and the
CREATION_SCHEDULED branch at another. -/
theorem C4_witness :
    (sync_service_settings none [⟨1, SyncState.IN_SYNC, "", "a"⟩] =
        ([⟨1, SyncState.SYNCING_SCHEDULED, "", "a"⟩], [SubmittedTask.beginSyncing 1]) ∧
      (sync_service_settings none [⟨1, SyncState.SYNCING_SCHEDULED, "", "a"⟩]).2 = []) ∧
    ((sync_service_settings (some [2]) [⟨2, SyncState.CREATION_SCHEDULED, "", "b"⟩]).1
        = [⟨2, SyncState.CREATION_SCHEDULED, "", "b"⟩] ∧
      begin_creating_guard ⟨2, SyncState.CREATION_SCHEDULED, "", "b"⟩
        = some ⟨2, SyncState.CREATING, "", "b"⟩) :=
  ⟨(C4_synchronous_transition_before_submit ⟨1, SyncState.IN_SYNC, "", "a"⟩).1 rfl,
   (C4_synchronous_transition_before_submit ⟨2, SyncState.CREATION_SCHEDULED, "", "b"⟩).2 rfl⟩

/-- A backend whose ping signals NotImplemented and whose other operations
succeed. -/
def notImplPingBackend : Backend :=
  { okBackend with ping := PingOutcome.notImplemented }

/-- C5, counterexample: during recovery of an ERRED entity, a NotImplemented
signal from ping is not treated as a successful no-op: the entity is driven
back to ERRED with a ping-failure message, while the identical run whose ping
answers alive ends IN_SYNC with the error cleared. -/
theorem C5_counterexample :
    (recover_entity notImplPingBackend ⟨1, SyncState.ERRED, "old", "s"⟩).entity
      = ⟨1, SyncState.ERRED, "Failed to ping service settings s", "s"⟩ ∧
    (recover_entity okBackend ⟨1, SyncState.ERRED, "old", "s"⟩).entity
      = ⟨1, SyncState.IN_SYNC, "", "s"⟩ := by
  decide

/-- C5, amended: a NotImplemented signal is a successful no-op for the
sync/creation adapter call and for every dependent propagation operation
(push, add, both removals complete without warning and without retry); the
exception is the recovery liveness probe, where a NotImplemented ping is
treated as a dead backend and the entity is set to ERRED with a ping-failure
message. -/
theorem C5_not_implemented_semantics :
    (∀ b : Backend, b.sync = AdapterOutcome.notImplemented → sync_task_body b = none) ∧
    (∀ (e : Entity) (b : Backend) (r : Bool),
      e.state = SyncState.SYNCING_SCHEDULED → b.sync = AdapterOutcome.notImplemented →
      (run_sync_pipeline begin_syncing_guard b r e).entity.state = SyncState.IN_SYNC) ∧
    (∀ (k : SshPublicKey) (l : SPLink),
      l.backend.add_ssh_key = AdapterOutcome.notImplemented → l.state = SyncState.IN_SYNC →
      push_ssh_public_key (some k) (some l) = ⟨false, [AdapterOp.addSshKeyOp], false⟩) ∧
    (∀ (u : UserRec) (l : SPLink),
      l.backend.add_user = AdapterOutcome.notImplemented → l.state = SyncState.IN_SYNC →
      add_user (some u) (some l) = ⟨false, [AdapterOp.addUserOp], false⟩) ∧
    (∀ (k : SshPublicKey) (l : SPLink),
      l.backend.remove_ssh_key = AdapterOutcome.notImplemented →
      remove_ssh_public_key k (some l) = ⟨true, [AdapterOp.removeSshKeyOp], false⟩) ∧
    (∀ (u : UserRec) (l : SPLink),
      l.backend.remove_user = AdapterOutcome.notImplemented →
      remove_user u (some l) = ⟨[AdapterOp.removeUserOp], none⟩) ∧
    (∀ (e : Entity) (b : Backend),
      e.state = SyncState.ERRED → b.ping = PingOutcome.notImplemented →
      (recover_entity b e).entity =
        ⟨e.uuid, SyncState.ERRED, "Failed to ping service settings " ++ e.name, e.name⟩) := by
  refine ⟨?_, ?_, ?_, ?_, ?_, ?_, ?_⟩
  · intro b hb
    simp [sync_task_body, hb]
  · intro e b r he hb
    cases r <;>
      simp [run_sync_pipeline, begin_syncing_guard, transitionGuard, he, sync_task_body, hb,
        sync_service_settings_succeeded, set_in_sync]
  · intro k l hb hs
    simp [push_ssh_public_key, push_ssh_public_key_body, retry_if_false, hs,
      call_add_ssh_key, hb]
  · intro u l hb hs
    simp [add_user, add_user_body, retry_if_false, hs, call_add_user, hb]
  · intro k l hb
    simp [remove_ssh_public_key, hb]
  · intro u l hb
    simp [remove_user, hb]
  · intro e b he hb
    simp [recover_entity, begin_recovering_erred_service_settings, schedule_syncing,
      transitionGuard, he, hb, ping_failed, set_erred]

/-- C5, witness: the recovery conjunct at a concrete ERRED entity with a
NotImplemented ping, and the sync conjunct at a concrete backend. -/
theorem C5_witness :
    sync_task_body { okBackend with sync := AdapterOutcome.notImplemented } = none ∧
    (recover_entity notImplPingBackend ⟨2, SyncState.ERRED, "old", "t"⟩).entity
      = ⟨2, SyncState.ERRED, "Failed to ping service settings " ++ "t", "t"⟩ :=
  ⟨C5_not_implemented_semantics.1 { okBackend with sync := AdapterOutcome.notImplemented } rfl,
   C5_not_implemented_semantics.2.2.2.2.2.2 ⟨2, SyncState.ERRED, "old", "t"⟩
     notImplPingBackend rfl rfl⟩

/-- C6: a backend error raised by the adapter sync call during the
beginSyncing pipeline (entered from SYNCING_SCHEDULED) or the beginCreating
pipeline (entered from CREATION_SCHEDULED) leaves the entity ERRED with the
error text persisted as its error message, and the pipeline requests no
task-level retry. -/
theorem C6_backend_error_sets_erred (e : Entity) (b : Backend) (m : String) (r : Bool) :
    (e.state = SyncState.SYNCING_SCHEDULED →
      (b.sync = AdapterOutcome.serviceError m ∨ b.sync = AdapterOutcome.cloudError m) →
      run_sync_pipeline begin_syncing_guard b r e =
        ⟨{ e with state := SyncState.ERRED, error_message := m }, false, [AdapterOp.syncOp]⟩) ∧
    (e.state = SyncState.CREATION_SCHEDULED →
      (b.sync = AdapterOutcome.serviceError m ∨ b.sync = AdapterOutcome.cloudError m) →
      run_sync_pipeline begin_creating_guard b r e =
        ⟨{ e with state := SyncState.ERRED, error_message := m }, false, [AdapterOp.syncOp]⟩) := by
  constructor
  · intro he hb
    rcases hb with hb | hb <;>
      simp [run_sync_pipeline, begin_syncing_guard, transitionGuard, he, sync_task_body, hb,
        sync_service_settings_failed, set_erred]
  · intro he hb
    rcases hb with hb | hb <;>
      simp [run_sync_pipeline, begin_creating_guard, transitionGuard, he, sync_task_body, hb,
        sync_service_settings_failed, set_erred]

/-- C6, witness: a concrete SYNCING_SCHEDULED entity whose backend sync
raises a ServiceBackendError with text timeout ends ERRED with that text and
no retry request. -/
theorem C6_witness :
    run_sync_pipeline begin_syncing_guard
        { okBackend with sync := AdapterOutcome.serviceError "timeout" } false
        ⟨1, SyncState.SYNCING_SCHEDULED, "", "s"⟩
      = ⟨⟨1, SyncState.ERRED, "timeout", "s"⟩, false, [AdapterOp.syncOp]⟩ :=
  (C6_backend_error_sets_erred ⟨1, SyncState.SYNCING_SCHEDULED, "", "s"⟩
      { okBackend with sync := AdapterOutcome.serviceError "timeout" } "timeout" false).1
    rfl (Or.inl rfl)

/-- C7, counterexample: an ERRED entity whose adapter ping answers alive but
whose subsequent sync call raises ends ERRED with the sync error text, not
IN_SYNC as the claim states for every entity whose ping returns true. -/
theorem C7_counterexample :
    (recover_entity { okBackend with sync := AdapterOutcome.serviceError "sync boom" }
        ⟨1, SyncState.ERRED, "old", "s"⟩).entity
      = ⟨1, SyncState.ERRED, "sync boom", "s"⟩ := by
  decide

/-- C7, amended: the recovery sweep selects an ERRED entity; when its adapter
ping answers alive and the subsequent sync call succeeds, the entity passes
through SYNCING_SCHEDULED and SYNCING and ends IN_SYNC with the error message
cleared; when ping does not answer alive (false or NotImplemented), the
entity ends ERRED with an updated ping-failure message. -/
theorem C7_recovery_path (e : Entity) (b : Backend) (h : e.state = SyncState.ERRED) :
    recover_erred_service_settings none [e] = [e.uuid] ∧
    (b.ping = PingOutcome.ok true → b.sync = AdapterOutcome.ok →
      (begin_recovering_erred_service_settings b e).entity.state = SyncState.SYNCING_SCHEDULED ∧
      (begin_recovering_erred_service_settings b e).submitted = true ∧
      Option.map Entity.state
          (begin_syncing_guard (begin_recovering_erred_service_settings b e).entity)
        = some SyncState.SYNCING ∧
      (recover_entity b e).entity = { e with state := SyncState.IN_SYNC, error_message := "" }) ∧
    ((b.ping = PingOutcome.ok false ∨ b.ping = PingOutcome.notImplemented) →
      (recover_entity b e).entity.state = SyncState.ERRED ∧
      (recover_entity b e).entity.error_message
        = "Failed to ping service settings " ++ e.name) := by
  refine ⟨?_, ?_, ?_⟩
  · simp [recover_erred_service_settings, h]
  · intro hp hs
    simp [recover_entity, begin_recovering_erred_service_settings, schedule_syncing,
      transitionGuard, h, hp, run_sync_pipeline, begin_syncing_guard, sync_task_body, hs,
      sync_service_settings_succeeded, set_in_sync]
  · intro hp
    rcases hp with hp | hp <;>
      simp [recover_entity, begin_recovering_erred_service_settings, schedule_syncing,
        transitionGuard, h, hp, ping_failed, set_erred]

/-- C7, witness: a concrete ERRED entity with an all-ok backend is selected
by the recovery sweep, passes through the scheduled and active states, and
ends IN_SYNC with an empty error message. -/
theorem C7_witness :
    recover_erred_service_settings none [⟨1, SyncState.ERRED, "old", "s"⟩] = [1] ∧
    (recover_entity okBackend ⟨1, SyncState.ERRED, "old", "s"⟩).entity
      = ⟨1, SyncState.IN_SYNC, "", "s"⟩ :=
  ⟨(C7_recovery_path ⟨1, SyncState.ERRED, "old", "s"⟩ okBackend rfl).1,
   ((C7_recovery_path ⟨1, SyncState.ERRED, "old", "s"⟩ okBackend rfl).2.1 rfl rfl).2.2.2⟩

/-- C8, counterexample: a ServiceBackendError raised by the adapter during
remove_user is not caught by the task, so the unit of work does not report
successful completion: the error propagates out with its text. -/
theorem C8_counterexample :
    (remove_user ⟨9⟩ (some ⟨SyncState.IN_SYNC,
        { okBackend with remove_user := AdapterOutcome.serviceError "spl failure" }⟩)).raised
      = some "spl failure" := by
  decide

/-- C8, amended: for SSH-key push, SSH-key removal and user add, an adapter
backend error is logged as a warning and the unit of work still completes
without error and without retry; for user removal only NotImplemented is
swallowed, and a backend error propagates out of the task. None of the four
tasks writes the link state. -/
theorem C8_backend_error_best_effort (k : SshPublicKey) (u : UserRec) (l : SPLink)
    (m : String) :
    (l.state = SyncState.IN_SYNC →
      (l.backend.add_ssh_key = AdapterOutcome.serviceError m ∨
        l.backend.add_ssh_key = AdapterOutcome.cloudError m) →
      push_ssh_public_key (some k) (some l) = ⟨false, [AdapterOp.addSshKeyOp], true⟩) ∧
    (l.state = SyncState.IN_SYNC →
      (l.backend.add_user = AdapterOutcome.serviceError m ∨
        l.backend.add_user = AdapterOutcome.cloudError m) →
      add_user (some u) (some l) = ⟨false, [AdapterOp.addUserOp], true⟩) ∧
    ((l.backend.remove_ssh_key = AdapterOutcome.serviceError m ∨
        l.backend.remove_ssh_key = AdapterOutcome.cloudError m) →
      remove_ssh_public_key k (some l) = ⟨true, [AdapterOp.removeSshKeyOp], true⟩) ∧
    ((l.backend.remove_user = AdapterOutcome.serviceError m ∨
        l.backend.remove_user = AdapterOutcome.cloudError m) →
      remove_user u (some l) = ⟨[AdapterOp.removeUserOp], some m⟩) := by
  refine ⟨?_, ?_, ?_, ?_⟩
  · intro hs hb
    rcases hb with hb | hb <;>
      simp [push_ssh_public_key, push_ssh_public_key_body, retry_if_false, hs,
        call_add_ssh_key, hb]
  · intro hs hb
    rcases hb with hb | hb <;>
      simp [add_user, add_user_body, retry_if_false, hs, call_add_user, hb]
  · intro hb
    rcases hb with hb | hb <;> simp [remove_ssh_public_key, hb]
  · intro hb
    rcases hb with hb | hb <;> simp [remove_user, hb]

/-- C8, witness: a concrete push whose add_ssh_key call raises completes with
a warning, no retry request, and the single adapter call. -/
theorem C8_witness :
    push_ssh_public_key (some ⟨7⟩) (some ⟨SyncState.IN_SYNC,
        { okBackend with add_ssh_key := AdapterOutcome.serviceError "down" }⟩)
      = ⟨false, [AdapterOp.addSshKeyOp], true⟩ :=
  (C8_backend_error_best_effort ⟨7⟩ ⟨9⟩ ⟨SyncState.IN_SYNC,
      { okBackend with add_ssh_key := AdapterOutcome.serviceError "down" }⟩ "down").1
    rfl (Or.inl rfl)

/-- C9: a dependent operation whose key, user or link reference resolves to
nothing terminates successfully: no retry is requested, no adapter operation
is invoked, and no warning is logged. -/
theorem C9_missing_reference_is_benign (k : SshPublicKey) (u : UserRec) (l : SPLink) :
    push_ssh_public_key none (some l) = ⟨false, [], false⟩ ∧
    push_ssh_public_key (some k) none = ⟨false, [], false⟩ ∧
    add_user none (some l) = ⟨false, [], false⟩ ∧
    add_user (some u) none = ⟨false, [], false⟩ ∧
    remove_ssh_public_key k none = ⟨true, [], false⟩ ∧
    remove_user u none = ⟨[], none⟩ :=
  ⟨rfl, rfl, rfl, rfl, rfl, rfl⟩

lemma recover_probe_no_sync_call (l : ServiceProjectLink) (flag : Bool) :
    AdapterOp.syncOp ∉ (recover_probe l flag).2 ∧
    AdapterOp.addSshKeyOp ∉ (recover_probe l flag).2 := by
  unfold recover_probe
  rcases l with ⟨s, st, b⟩
  cases flag <;>
    by_cases h1 : s = SyncState.ERRED <;>
    by_cases h2 : st.state = SyncState.ERRED <;>
    rcases hping : b.ping with alive | _ | pm <;>
    rcases hc : b.create_session_membership with _ | _ | cm | cm <;>
    rcases hk : b.create_session_keystone with _ | _ | km | km <;>
    simp [h1, h2, hping, hc, hk]

/-- C10: in recover_erred_service, a successful liveness probe moves each of
the link and its settings entity that is ERRED directly to IN_SYNC in a
single step, leaving every other field and any entity not in ERRED
unchanged, and the probe never invokes the adapter sync operation; a failed
probe changes nothing. -/
theorem C10_recover_erred_service (l : ServiceProjectLink) (flag : Bool) :
    ((recover_probe l flag).1 = true →
      recover_erred_service (some l) flag
        = some ({ l with
            state := if l.state = SyncState.ERRED then SyncState.IN_SYNC else l.state,
            settings := if l.settings.state = SyncState.ERRED
              then { l.settings with state := SyncState.IN_SYNC } else l.settings },
          (recover_probe l flag).2)) ∧
    ((recover_probe l flag).1 = false →
      recover_erred_service (some l) flag = some (l, (recover_probe l flag).2)) ∧
    AdapterOp.syncOp ∉ (recover_probe l flag).2 := by
  refine ⟨?_, ?_, (recover_probe_no_sync_call l flag).1⟩
  · intro hp
    by_cases h1 : l.state = SyncState.ERRED <;> by_cases h2 : l.settings.state = SyncState.ERRED <;>
      simp [recover_erred_service, hp, h1, h2, set_in_sync_from_erred, transitionGuard]
  · intro hp
    simp [recover_erred_service, hp]

/-- C10, witness: a link and settings entity both ERRED with an alive ping
are both moved directly to IN_SYNC, with only the ping invoked. -/
theorem C10_witness :
    recover_erred_service (some ⟨SyncState.ERRED, ⟨5, SyncState.ERRED, "x", "s"⟩, okBackend⟩) false
      = some (⟨SyncState.IN_SYNC, ⟨5, SyncState.IN_SYNC, "x", "s"⟩, okBackend⟩,
          [AdapterOp.pingOp]) :=
  (C10_recover_erred_service ⟨SyncState.ERRED, ⟨5, SyncState.ERRED, "x", "s"⟩, okBackend⟩
      false).1 (by decide)
